import Mathlib

/-!
Verification of the scrape-deduplicate-notify pipeline of the tennis-booker
repository.  The definitions below are a shallow embedding of
`apps/scraper/src/deduplication/redis_deduplicator.py` and
`apps/scraper/src/scrapers/scraper_orchestrator.py`:

* machine integers become `Nat` with explicit `% 2^32` where overflow matters
  (the MD5 hash used for over-long dedup keys);
* the Redis cache is a list of present keys plus an environment flag for the
  two failure modes the Python code distinguishes (connect fails / operation
  raises);
* the MongoDB collections are lists of documents; `find_one` returns the first
  match and `replace_one(..., upsert=True)` replaces the first match in place
  or appends;
* Python exceptions become explicit control flow: the `float(None)` `TypeError`
  that can occur while building a notification message is a boolean "raised"
  flag threaded through the per-slot loop, and the surrounding `try/except`
  blocks of the source are reproduced as the corresponding branches.
-/

set_option maxRecDepth 100000

namespace TennisBooker

/-! ## MD5 (`hashlib.md5(...).hexdigest()` as used by `generate_slot_key`) -/

namespace MD5

/-- Rotate a 32-bit word (given reduced mod `2^32`) left by `n` bits. -/
def rotl (x n : Nat) : Nat :=
  ((x <<< n) ||| (x >>> (32 - n))) % 4294967296

/-- The 64 MD5 round constants `K[i] = floor(2^32 * |sin(i+1)|)` (RFC 1321). -/
def K : List Nat :=
  [0xd76aa478, 0xe8c7b756, 0x242070db, 0xc1bdceee,
   0xf57c0faf, 0x4787c62a, 0xa8304613, 0xfd469501,
   0x698098d8, 0x8b44f7af, 0xffff5bb1, 0x895cd7be,
   0x6b901122, 0xfd987193, 0xa679438e, 0x49b40821,
   0xf61e2562, 0xc040b340, 0x265e5a51, 0xe9b6c7aa,
   0xd62f105d, 0x02441453, 0xd8a1e681, 0xe7d3fbc8,
   0x21e1cde6, 0xc33707d6, 0xf4d50d87, 0x455a14ed,
   0xa9e3e905, 0xfcefa3f8, 0x676f02d9, 0x8d2a4c8a,
   0xfffa3942, 0x8771f681, 0x6d9d6122, 0xfde5380c,
   0xa4beea44, 0x4bdecfa9, 0xf6bb4b60, 0xbebfbc70,
   0x289b7ec6, 0xeaa127fa, 0xd4ef3085, 0x04881d05,
   0xd9d4d039, 0xe6db99e5, 0x1fa27cf8, 0xc4ac5665,
   0xf4292244, 0x432aff97, 0xab9423a7, 0xfc93a039,
   0x655b59c3, 0x8f0ccc92, 0xffeff47d, 0x85845dd1,
   0x6fa87e4f, 0xfe2ce6e0, 0xa3014314, 0x4e0811a1,
   0xf7537e82, 0xbd3af235, 0x2ad7d2bb, 0xeb86d391]

/-- The per-round left-rotation amounts (RFC 1321). -/
def S : List Nat :=
  [7, 12, 17, 22, 7, 12, 17, 22, 7, 12, 17, 22, 7, 12, 17, 22,
   5,  9, 14, 20, 5,  9, 14, 20, 5,  9, 14, 20, 5,  9, 14, 20,
   4, 11, 16, 23, 4, 11, 16, 23, 4, 11, 16, 23, 4, 11, 16, 23,
   6, 10, 15, 21, 6, 10, 15, 21, 6, 10, 15, 21, 6, 10, 15, 21]

/-- One of the 64 MD5 operations; `M` are the sixteen message words of the
current chunk and the state is `(A, B, C, D)`. -/
def step (M : List Nat) (st : Nat × Nat × Nat × Nat) (i : Nat) :
    Nat × Nat × Nat × Nat :=
  let a := st.1
  let b := st.2.1
  let c := st.2.2.1
  let d := st.2.2.2
  let f :=
    if i < 16 then (b &&& c) ||| ((b ^^^ 4294967295) &&& d)
    else if i < 32 then (d &&& b) ||| ((d ^^^ 4294967295) &&& c)
    else if i < 48 then b ^^^ c ^^^ d
    else c ^^^ (b ||| (d ^^^ 4294967295))
  let g :=
    if i < 16 then i
    else if i < 32 then (5 * i + 1) % 16
    else if i < 48 then (3 * i + 5) % 16
    else (7 * i) % 16
  let tmp := (a + f + K.getD i 0 + M.getD g 0) % 4294967296
  (d, (b + rotl tmp (S.getD i 0)) % 4294967296, b, c)

/-- Process one 64-byte chunk (bytes little-endian into sixteen 32-bit words). -/
def processChunk (st : Nat × Nat × Nat × Nat) (chunk : List Nat) :
    Nat × Nat × Nat × Nat :=
  let M := (List.range 16).map (fun g =>
    chunk.getD (4 * g) 0 + 256 * chunk.getD (4 * g + 1) 0 +
    65536 * chunk.getD (4 * g + 2) 0 + 16777216 * chunk.getD (4 * g + 3) 0)
  let r := (List.range 64).foldl (step M) st
  ((st.1 + r.1) % 4294967296, (st.2.1 + r.2.1) % 4294967296,
   (st.2.2.1 + r.2.2.1) % 4294967296, (st.2.2.2 + r.2.2.2) % 4294967296)

/-- MD5 padding: a `0x80` byte, zeros to 56 mod 64, then the bit length as a
64-bit little-endian quantity. -/
def pad (bytes : List Nat) : List Nat :=
  let r := (bytes.length + 1) % 64
  let zeros := (120 - r) % 64
  bytes ++ [128] ++ List.replicate zeros 0 ++
    (List.range 8).map (fun i => ((8 * bytes.length) >>> (8 * i)) % 256)

/-- Split a padded message into its 64-byte chunks. -/
def chunks (l : List Nat) : List (List Nat) :=
  (List.range (l.length / 64)).map (fun i => (l.drop (64 * i)).take 64)

/-- Lower-case hexadecimal digit. -/
def hexDigit (n : Nat) : Char :=
  if n < 10 then Char.ofNat (48 + n) else Char.ofNat (87 + n)

/-- A 32-bit word rendered as eight hex characters, bytes little-endian. -/
def wordHexLE (w : Nat) : List Char :=
  (((List.range 4).map (fun i => (w >>> (8 * i)) % 256)).map
    (fun b => [hexDigit (b / 16), hexDigit (b % 16)])).flatten

/-- MD5 digest of a byte list, rendered as the usual 32-character hex string. -/
def md5hexBytes (bytes : List Nat) : String :=
  let st := (chunks (pad bytes)).foldl processChunk
    (0x67452301, 0xefcdab89, 0x98badcfe, 0x10325476)
  String.mk (wordHexLE st.1 ++ wordHexLE st.2.1 ++ wordHexLE st.2.2.1 ++
    wordHexLE st.2.2.2)

/-- Embeds `hashlib.md5(s.encode()).hexdigest()`. -/
def md5hex (s : String) : String :=
  md5hexBytes (s.toUTF8.toList.map (fun b => b.toNat))

theorem wordHexLE_length (w : Nat) : (wordHexLE w).length = 8 := rfl

theorem md5hexBytes_length (bytes : List Nat) :
    (md5hexBytes bytes).length = 32 := by
  simp [md5hexBytes, String.length, wordHexLE_length]

theorem md5hex_length (s : String) : (md5hex s).length = 32 :=
  md5hexBytes_length _

end MD5

/-! ## Data model

`SlotDoc` is the slot dictionary circulating through the pipeline: it is both
the document built at `scraper_orchestrator.py:240-254` (ScrapedSlot fields
plus `platform`) and the `slot_data` dict consumed by the deduplicator.
`str(ObjectId)` round-trips, so `venue_id` is kept as a string.  `price` is
`Optional[float]` in the source; only its presence and exact value matter to
the claims, so it is embedded as `Option ℚ`.  Timestamps are abstract `Nat`
ticks. -/

structure SlotDoc where
  venue_id : String
  venue_name : String
  court_id : String
  court_name : String
  date : String
  start_time : String
  end_time : String
  price : Option ℚ
  currency : String
  available : Bool
  booking_url : Option String
  scraped_at : Nat
  platform : String
deriving DecidableEq, Repr

/-- The `ScrapedSlot` dataclass (`base_scraper.py`). -/
structure ScrapedSlot where
  venue_id : String
  venue_name : String
  court_id : String
  court_name : String
  date : String
  start_time : String
  end_time : String
  price : Option ℚ
  currency : String
  available : Bool
  booking_url : Option String
  scraped_at : Nat
deriving DecidableEq, Repr

/-- The `ScrapingResult` dataclass (`base_scraper.py`). -/
structure ScrapingResult where
  venue_id : String
  venue_name : String
  platform : String
  success : Bool
  slots_found : List ScrapedSlot
  errors : List String
  duration_ms : Nat
  scraped_at : Nat
deriving DecidableEq, Repr

/-- The `slot_doc` dictionary built from a `ScrapedSlot` at
`scraper_orchestrator.py:240-254`. -/
def toSlotDoc (platform : String) (slot : ScrapedSlot) : SlotDoc :=
  { venue_id := slot.venue_id
    venue_name := slot.venue_name
    court_id := slot.court_id
    court_name := slot.court_name
    date := slot.date
    start_time := slot.start_time
    end_time := slot.end_time
    price := slot.price
    currency := slot.currency
    available := slot.available
    booking_url := slot.booking_url
    scraped_at := slot.scraped_at
    platform := platform }

/-! ## Dedup key generation (`RedisDeduplicator.generate_slot_key`) -/

/-- The concatenated natural-key string `venueId:date:startTime:courtId`. -/
def key_suffix (slot_data : SlotDoc) : String :=
  String.intercalate ":" [slot_data.venue_id, slot_data.date,
    slot_data.start_time, slot_data.court_id]

/-- Embeds `RedisDeduplicator.generate_slot_key` (redis_deduplicator.py:117-144):
literal key `dedupe:slot:<suffix>`, or `dedupe:slot:hash:<md5(suffix)>` when
the suffix exceeds 200 characters. -/
def generate_slot_key (slot_data : SlotDoc) : String :=
  if (key_suffix slot_data).length > 200 then
    "dedupe:slot:hash:" ++ MD5.md5hex (key_suffix slot_data)
  else
    "dedupe:slot:" ++ key_suffix slot_data

/-! ## Deduplicator state machine (`RedisDeduplicator`) -/

/-- The `self.metrics` dictionary. -/
structure DedupMetrics where
  total_checks : Nat
  duplicates_found : Nat
  new_slots : Nat
  redis_errors : Nat
  connection_failures : Nat
deriving DecidableEq, Repr

/-- Metrics as initialized in `RedisDeduplicator.__init__` / `reset_metrics`. -/
def initMetrics : DedupMetrics :=
  { total_checks := 0, duplicates_found := 0, new_slots := 0,
    redis_errors := 0, connection_failures := 0 }

/-- Deduplicator state: whether `self.client` is set, the set of dedup keys
currently present in Redis (only presence within the TTL window matters; the
stored timestamp values play no role in any claim), and the counters. -/
structure DedupState where
  clientConnected : Bool
  cache : List String
  metrics : DedupMetrics
deriving DecidableEq, Repr

/-- A fresh deduplicator (`self.client = None`) over an empty cache. -/
def initDedupState : DedupState :=
  { clientConnected := false, cache := [], metrics := initMetrics }

/-- Behaviour of the external world during one step: whether `connect()`
succeeds when attempted, whether `client.set` raises, whether the notification
publisher works, and the current clock tick (`datetime.now()`). -/
structure Env where
  connectOk : Bool
  setRaises : Bool
  publishOk : Bool
  now : Nat
deriving DecidableEq, Repr

/-- Embeds `RedisDeduplicator.connect` (redis_deduplicator.py:66-115): on failure the
`connection_failures` counter is incremented and `False` is returned; on
success `self.client` is set. -/
def connect (env : Env) (st : DedupState) : Bool × DedupState :=
  if env.connectOk then
    (true, { st with clientConnected := true })
  else
    (false, { st with metrics :=
      { st.metrics with connection_failures := st.metrics.connection_failures + 1 } })

/-- The `try` body of `is_duplicate_slot` (redis_deduplicator.py:168-197): an
atomic `SET key value EX ttl NX`; a raising operation is counted in
`redis_errors` and answered `(False, "")`. -/
def checkSet (env : Env) (st : DedupState) (slot_data : SlotDoc) :
    (Bool × String) × DedupState :=
  if env.setRaises then
    ((false, ""), { st with metrics :=
      { st.metrics with redis_errors := st.metrics.redis_errors + 1 } })
  else
    let redis_key := generate_slot_key slot_data
    if redis_key ∈ st.cache then
      ((true, redis_key), { st with metrics :=
        { st.metrics with duplicates_found := st.metrics.duplicates_found + 1 } })
    else
      ((false, redis_key),
       { st with
         cache := redis_key :: st.cache
         metrics := { st.metrics with new_slots := st.metrics.new_slots + 1 } })

/-- Embeds `RedisDeduplicator.is_duplicate_slot` (redis_deduplicator.py:146-197). -/
def is_duplicate_slot (env : Env) (st0 : DedupState) (slot_data : SlotDoc) :
    (Bool × String) × DedupState :=
  let st := { st0 with metrics :=
    { st0.metrics with total_checks := st0.metrics.total_checks + 1 } }
  if st.clientConnected then
    checkSet env st slot_data
  else
    match connect env st with
    | (true, st1) => checkSet env st1 slot_data
    | (false, st1) => ((false, ""), st1)

/-- Embeds `RedisDeduplicator.check_multiple_slots` (redis_deduplicator.py:199-223):
the single-slot check applied in order, partitioning into
`(new_slots, duplicate_slots)` where each duplicate is paired with its key. -/
def check_multiple_slots (env : Env) (st : DedupState) :
    List SlotDoc → (List SlotDoc × List (SlotDoc × String)) × DedupState
  | [] => (([], []), st)
  | slot :: rest =>
    let r := is_duplicate_slot env st slot
    let t := check_multiple_slots env r.2 rest
    if r.1.1 then
      ((t.1.1, (slot, r.1.2) :: t.1.2), t.2)
    else
      ((slot :: t.1.1, t.1.2), t.2)

/-- The report produced by `RedisDeduplicator.get_metrics`
(redis_deduplicator.py:287-307): the five counters plus derived rates.  Python
computes the rates with `/` on floats; here they are exact rationals. -/
structure MetricsReport where
  total_checks : Nat
  duplicates_found : Nat
  new_slots : Nat
  redis_errors : Nat
  connection_failures : Nat
  duplicate_rate : ℚ
  new_slot_rate : ℚ
  error_rate : ℚ
deriving DecidableEq, Repr

/-- Embeds `RedisDeduplicator.get_metrics` (redis_deduplicator.py:287-307). -/
def get_metrics (m : DedupMetrics) : MetricsReport :=
  { total_checks := m.total_checks
    duplicates_found := m.duplicates_found
    new_slots := m.new_slots
    redis_errors := m.redis_errors
    connection_failures := m.connection_failures
    duplicate_rate :=
      if m.total_checks > 0 then (m.duplicates_found : ℚ) / m.total_checks else 0
    new_slot_rate :=
      if m.total_checks > 0 then (m.new_slots : ℚ) / m.total_checks else 0
    error_rate :=
      if m.total_checks > 0 then (m.redis_errors : ℚ) / m.total_checks else 0 }

/-! ## MongoDB slots collection

The `filter_query` of `store_scraping_result` (scraper_orchestrator.py:268-273)
selects on the natural key `(venue_id, court_id, date, start_time)`.
`find_one` returns the first matching document, `replace_one(..., upsert=True)`
replaces the first matching document in place or appends a new one. -/

/-- Does document `d` match the natural-key filter built from `q`? -/
def matchesFilter (q d : SlotDoc) : Bool :=
  d.venue_id == q.venue_id && d.court_id == q.court_id &&
  d.date == q.date && d.start_time == q.start_time

/-- Embeds `slots_collection.find_one(filter_query)`. -/
def find_one (coll : List SlotDoc) (q : SlotDoc) : Option SlotDoc :=
  coll.find? (fun d => matchesFilter q d)

/-- Embeds `slots_collection.replace_one(filter_query, slot_doc, upsert=True)` where
the filter is built from `slot_doc` itself. -/
def upsert_slot (coll : List SlotDoc) (doc : SlotDoc) : List SlotDoc :=
  match coll with
  | [] => [doc]
  | d :: rest =>
    if matchesFilter doc d then doc :: rest else d :: upsert_slot rest doc

/-! ## Orchestrator persistence step (`ScraperOrchestrator.store_scraping_result`) -/

/-- The `notification_slot` dictionary (scraper_orchestrator.py:284-297).
`price` is `float(slot_doc["price"])`: the conversion is only reached with a
non-`None` price (a `None` price raises `TypeError`, see `processNewSlots`). -/
structure NotificationMsg where
  venueId : String
  venueName : String
  platform : String
  courtId : String
  courtName : String
  date : String
  startTime : String
  endTime : String
  price : ℚ
  isAvailable : Bool
  bookingUrl : Option String
  scrapedAt : Nat
deriving DecidableEq, Repr

/-- Build the notification message for a new available slot with price `p`. -/
def mkNotification (doc : SlotDoc) (p : ℚ) : NotificationMsg :=
  { venueId := doc.venue_id
    venueName := doc.venue_name
    platform := doc.platform
    courtId := doc.court_id
    courtName := doc.court_name
    date := doc.date
    startTime := doc.start_time
    endTime := doc.end_time
    price := p
    isAvailable := doc.available
    bookingUrl := doc.booking_url
    scrapedAt := doc.scraped_at }

/-- The `log_doc` appended to `scraping_logs` (scraper_orchestrator.py:319-332). -/
structure LogDoc where
  venue_id : String
  venue_name : String
  platform : String
  scrape_timestamp : Nat
  success : Bool
  slots_found : Nat
  scrape_duration_ms : Nat
  errors : List String
  created_at : Nat
deriving DecidableEq, Repr

/-- Build the `log_doc` for a result. -/
def mkLogDoc (env : Env) (result : ScrapingResult) : LogDoc :=
  { venue_id := result.venue_id
    venue_name := result.venue_name
    platform := result.platform
    scrape_timestamp := result.scraped_at
    success := result.success
    slots_found := result.slots_found.length
    scrape_duration_ms := result.duration_ms
    errors := result.errors
    created_at := env.now }

/-- All external state touched by the orchestrator: the deduplicator, the
`slots` collection, the `scraping_logs` collection and the `court_slots`
notification queue. -/
structure OrchState where
  dedup : DedupState
  slots : List SlotDoc
  scraping_logs : List LogDoc
  published : List NotificationMsg
deriving DecidableEq, Repr

/-- The `for slot_doc in new_slots` loop (scraper_orchestrator.py:267-299).
Returns the slots collection after the upserts performed, the
`new_slots_for_notification` batch accumulated, and whether the loop aborted
with a `TypeError` from `float(None)`.  Note the upsert of the offending slot
itself has already been committed when the exception fires, because
`replace_one` (line 280) precedes the notification construction (line 293). -/
def processNewSlots (coll : List SlotDoc) (notifs : List NotificationMsg) :
    List SlotDoc → List SlotDoc × List NotificationMsg × Bool
  | [] => (coll, notifs, false)
  | doc :: rest =>
    let is_new_slot := (find_one coll doc).isNone
    let coll1 := upsert_slot coll doc
    if is_new_slot && doc.available then
      match doc.price with
      | none => (coll1, notifs, true)
      | some p => processNewSlots coll1 (notifs ++ [mkNotification doc p]) rest
    else
      processNewSlots coll1 notifs rest

/-- Append the scraping log entry (scraper_orchestrator.py:318-332). -/
def appendLog (env : Env) (st : OrchState) (result : ScrapingResult) : OrchState :=
  { st with scraping_logs := st.scraping_logs ++ [mkLogDoc env result] }

/-- Embeds `ScraperOrchestrator.store_scraping_result`
(scraper_orchestrator.py:230-337).  The whole body sits in one `try/except`:

* an empty result skips the storage block and goes straight to the log append;
* otherwise the slot documents are built, partitioned by the deduplicator, and
  the new ones run through the per-slot loop;
* a `TypeError` raised in that loop is swallowed by the outer `except`, so the
  function returns with the partial upserts and dedup marks committed but with
  no publish and no log entry;
* otherwise the notification batch is published (a publish failure is caught
  by the inner `try` at lines 306-314 and only logged) and the log entry is
  appended. -/
def store_scraping_result (env : Env) (st : OrchState) (result : ScrapingResult) :
    OrchState :=
  if result.slots_found.isEmpty then
    appendLog env st result
  else
    let slots_data := result.slots_found.map (toSlotDoc result.platform)
    let checked := check_multiple_slots env st.dedup slots_data
    let new_slots := checked.1.1
    let processed := processNewSlots st.slots [] new_slots
    let st1 := { st with dedup := checked.2, slots := processed.1 }
    if processed.2.2 then
      st1
    else
      let notifs := processed.2.1
      let st2 :=
        if notifs.isEmpty then st1
        else if env.publishOk then { st1 with published := st1.published ++ notifs }
        else st1
      appendLog env st2 result

/-! ## Orchestrator venue loop (`ScraperOrchestrator.scrape_all_venues`) -/

/-- The venue configuration fields the loop touches (`venue['_id']`,
`venue['name']`, `venue['scraper_config']['type']`). -/
structure Venue where
  id : String
  name : String
  platform : String
deriving DecidableEq, Repr

/-- The synthesized failed result of the `except` branch
(scraper_orchestrator.py:210-226): `success=False`, no slots, and the single
error string `"Error scraping venue <name>: <e>"`. -/
def mk_error_result (venue : Venue) (e : String) (now : Nat) : ScrapingResult :=
  { venue_id := venue.id
    venue_name := venue.name
    platform := venue.platform
    success := false
    slots_found := []
    errors := ["Error scraping venue " ++ venue.name ++ ": " ++ e]
    duration_ms := 0
    scraped_at := now }

/-- Embeds `ScraperOrchestrator.scrape_all_venues` (scraper_orchestrator.py:181-228),
from the venue list onward (venue loading and pacing sleeps are external).
The per-venue scrape is a black box `scrape` that either returns a result or
raises (`Except.error` carries the exception text).  Each result — scraped or
synthesized — is appended in venue order and routed through
`store_scraping_result`, and the loop continues with the remaining venues. -/
def scrape_all_venues (env : Env) (scrape : Venue → Except String ScrapingResult) :
    List Venue → OrchState → List ScrapingResult × OrchState
  | [], st => ([], st)
  | v :: rest, st =>
    match scrape v with
    | .ok result =>
      let st1 := store_scraping_result env st result
      let t := scrape_all_venues env scrape rest st1
      (result :: t.1, t.2)
    | .error e =>
      let error_result := mk_error_result v e env.now
      let st1 := store_scraping_result env st error_result
      let t := scrape_all_venues env scrape rest st1
      (error_result :: t.1, t.2)

/-! ## Concrete fixtures used by witnesses and counterexamples -/

/-- A representative slot document. -/
def slotFixtureA : SlotDoc :=
  { venue_id := "665f1e2a9c8d4b0012345678"
    venue_name := "Victoria Park"
    court_id := "court-1"
    court_name := "Court 1"
    date := "2025-06-10"
    start_time := "18:00"
    end_time := "19:00"
    price := some 12
    currency := "GBP"
    available := true
    booking_url := some "https://example.com/book"
    scraped_at := 100
    platform := "courtside" }

/-- Same natural key as `slotFixtureA`, every other field different. -/
def slotFixtureB : SlotDoc :=
  { slotFixtureA with
    venue_name := "Renamed Venue"
    court_name := "Centre Court"
    end_time := "19:30"
    price := none
    currency := "EUR"
    available := false
    booking_url := none
    scraped_at := 250
    platform := "clubspark" }

/-- A slot whose concatenated natural-key string has more than 200 characters. -/
def longKeySlot : SlotDoc :=
  { slotFixtureA with venue_id := String.mk (List.replicate 210 'v') }

/-- A slot whose short natural-key string itself begins with `hash:`. -/
def hashNamedSlot : SlotDoc :=
  { slotFixtureA with venue_id := "hash", date := "a", start_time := "b", court_id := "c" }

/-- Everything reachable and working. -/
def envOk : Env := { connectOk := true, setRaises := false, publishOk := true, now := 7 }

/-- Redis unreachable: `connect()` fails. -/
def envDown : Env := { connectOk := false, setRaises := false, publishOk := true, now := 7 }

/-- Redis reachable but `client.set` raises. -/
def envFlaky : Env := { connectOk := true, setRaises := true, publishOk := true, now := 7 }

/-- Counter state after 100 checks: 30 duplicates, 70 new. -/
def metricsExample : DedupMetrics :=
  { total_checks := 100, duplicates_found := 30, new_slots := 70,
    redis_errors := 0, connection_failures := 0 }

/-- Fresh orchestrator-visible world: nothing cached, stored or published. -/
def initOrchState : OrchState :=
  { dedup := initDedupState, slots := [], scraping_logs := [], published := [] }

/-- An available scraped slot with no price (`price=None`). -/
def scrapedSlotNoPrice : ScrapedSlot :=
  { venue_id := "665f1e2a9c8d4b0012345678"
    venue_name := "Victoria Park"
    court_id := "court-1"
    court_name := "Court 1"
    date := "2025-06-10"
    start_time := "18:00"
    end_time := "19:00"
    price := none
    currency := "GBP"
    available := true
    booking_url := some "https://example.com/book"
    scraped_at := 100 }

/-- The same slot with a price attached. -/
def scrapedSlotPriced : ScrapedSlot := { scrapedSlotNoPrice with price := some 12 }

/-- A second, distinct priced available slot. -/
def scrapedSlotPriced2 : ScrapedSlot :=
  { scrapedSlotPriced with court_id := "court-2", court_name := "Court 2", price := some 14 }

/-- A successful scraping result carrying the given slots. -/
def mkResult (slots : List ScrapedSlot) : ScrapingResult :=
  { venue_id := "665f1e2a9c8d4b0012345678"
    venue_name := "Victoria Park"
    platform := "courtside"
    success := true
    slots_found := slots
    errors := []
    duration_ms := 1500
    scraped_at := 100 }

/-- Result containing only the unpriced available slot. -/
def resultNoPrice : ScrapingResult := mkResult [scrapedSlotNoPrice]

/-- Result containing only the priced available slot. -/
def resultPriced : ScrapingResult := mkResult [scrapedSlotPriced]

/-- Three venue configurations. -/
def venueA : Venue := { id := "a1", name := "Alpha Courts", platform := "courtside" }

def venueB : Venue := { id := "b2", name := "Bravo Courts", platform := "clubspark" }

def venueC : Venue := { id := "c3", name := "Charlie Courts", platform := "courtside" }

/-- A scrape behaviour where `Bravo Courts` throws and the others succeed. -/
def scrapeFixture : Venue → Except String ScrapingResult := fun v =>
  if v.name = "Bravo Courts" then .error "TimeoutError: page load timed out"
  else .ok (mkResult [scrapedSlotPriced])

/-! ## Theorems -/

/-- Claim C6: for every pair of slot values whose tuples
`(venue_id, date, start_time, court_id)` are equal, `generate_slot_key`
produces identical key strings, regardless of any other fields differing. -/
theorem generate_slot_key_deterministic (s1 s2 : SlotDoc)
    (hv : s1.venue_id = s2.venue_id) (hd : s1.date = s2.date)
    (hs : s1.start_time = s2.start_time) (hc : s1.court_id = s2.court_id) :
    generate_slot_key s1 = generate_slot_key s2 := by
  simp only [generate_slot_key, key_suffix, hv, hd, hs, hc]

/-- Witness for C6: two concrete slots with equal natural-key tuples but
different price, availability, names, url, platform get the same dedup key. -/
theorem generate_slot_key_deterministic_witness :
    (slotFixtureA.venue_id = slotFixtureB.venue_id ∧
     slotFixtureA.date = slotFixtureB.date ∧
     slotFixtureA.start_time = slotFixtureB.start_time ∧
     slotFixtureA.court_id = slotFixtureB.court_id ∧
     slotFixtureA.price ≠ slotFixtureB.price ∧
     slotFixtureA.available ≠ slotFixtureB.available ∧
     slotFixtureA.venue_name ≠ slotFixtureB.venue_name ∧
     slotFixtureA.booking_url ≠ slotFixtureB.booking_url) ∧
    generate_slot_key slotFixtureA = generate_slot_key slotFixtureB :=
  ⟨by decide, generate_slot_key_deterministic slotFixtureA slotFixtureB rfl rfl rfl rfl⟩

/-- Claim C9: `get_metrics` reports each rate as the counter divided by
`total_checks` when the latter is positive, and `0` for all three rates when
no checks have happened; in particular 30 duplicates and 70 new slots out of
100 checks give rates `0.30` and `0.70`. -/
theorem get_metrics_rates (m : DedupMetrics) :
    (0 < m.total_checks →
      (get_metrics m).duplicate_rate = (m.duplicates_found : ℚ) / m.total_checks ∧
      (get_metrics m).new_slot_rate = (m.new_slots : ℚ) / m.total_checks ∧
      (get_metrics m).error_rate = (m.redis_errors : ℚ) / m.total_checks) ∧
    (m.total_checks = 0 →
      (get_metrics m).duplicate_rate = 0 ∧
      (get_metrics m).new_slot_rate = 0 ∧
      (get_metrics m).error_rate = 0) ∧
    (m.total_checks = 100 → m.duplicates_found = 30 → m.new_slots = 70 →
      (get_metrics m).duplicate_rate = 30 / 100 ∧
      (get_metrics m).new_slot_rate = 70 / 100) := by
  refine ⟨fun h => ?_, fun h => ?_, fun h1 h2 h3 => ?_⟩
  · simp [get_metrics, h]
  · simp [get_metrics, h]
  · simp [get_metrics, h1, h2, h3]

/-- Witness for C9: the concrete 100/30/70 counter state. -/
theorem get_metrics_rates_witness :
    (get_metrics metricsExample).duplicate_rate = 30 / 100 ∧
    (get_metrics metricsExample).new_slot_rate = 70 / 100 :=
  (get_metrics_rates metricsExample).2.2 rfl rfl rfl

/-- Claim C3: when the cache backend is unreachable the single-slot check
returns `isDuplicate=false` with an empty key and increments exactly the
matching failure counter — `connection_failures` when there is no client and
`connect()` fails, `redis_errors` when the `SET` operation raises.  The Lean
function is total, which embeds "never raises an exception to the caller". -/
theorem is_duplicate_slot_fails_open (env : Env) (st : DedupState) (slot : SlotDoc) :
    (st.clientConnected = false → env.connectOk = false →
      (is_duplicate_slot env st slot).1 = (false, "") ∧
      (is_duplicate_slot env st slot).2.metrics.connection_failures =
        st.metrics.connection_failures + 1 ∧
      (is_duplicate_slot env st slot).2.metrics.redis_errors = st.metrics.redis_errors ∧
      (is_duplicate_slot env st slot).2.metrics.duplicates_found =
        st.metrics.duplicates_found ∧
      (is_duplicate_slot env st slot).2.metrics.new_slots = st.metrics.new_slots ∧
      (is_duplicate_slot env st slot).2.cache = st.cache) ∧
    (env.setRaises = true → (st.clientConnected = true ∨ env.connectOk = true) →
      (is_duplicate_slot env st slot).1 = (false, "") ∧
      (is_duplicate_slot env st slot).2.metrics.redis_errors =
        st.metrics.redis_errors + 1 ∧
      (is_duplicate_slot env st slot).2.metrics.connection_failures =
        st.metrics.connection_failures ∧
      (is_duplicate_slot env st slot).2.metrics.duplicates_found =
        st.metrics.duplicates_found ∧
      (is_duplicate_slot env st slot).2.metrics.new_slots = st.metrics.new_slots ∧
      (is_duplicate_slot env st slot).2.cache = st.cache) := by
  constructor
  · intro hc he
    simp [is_duplicate_slot, connect, hc, he]
  · intro hs hor
    rcases hor with h | h
    · simp [is_duplicate_slot, checkSet, h, hs]
    · by_cases hcc : st.clientConnected <;>
        simp [is_duplicate_slot, connect, checkSet, hcc, h, hs]

/-- Witness for C3: a fresh deduplicator against an unreachable Redis answers
"not a duplicate" and counts one connection failure; a connected-but-raising
Redis answers "not a duplicate" and counts one backend error. -/
theorem is_duplicate_slot_fails_open_witness :
    (initDedupState.clientConnected = false ∧ envDown.connectOk = false ∧
     (is_duplicate_slot envDown initDedupState slotFixtureA).1 = (false, "") ∧
     (is_duplicate_slot envDown initDedupState slotFixtureA).2.metrics.connection_failures =
       initDedupState.metrics.connection_failures + 1) ∧
    (envFlaky.setRaises = true ∧
     (is_duplicate_slot envFlaky initDedupState slotFixtureA).1 = (false, "") ∧
     (is_duplicate_slot envFlaky initDedupState slotFixtureA).2.metrics.redis_errors =
       initDedupState.metrics.redis_errors + 1) :=
  ⟨⟨rfl, rfl,
    ((is_duplicate_slot_fails_open envDown initDedupState slotFixtureA).1 rfl rfl).1,
    ((is_duplicate_slot_fails_open envDown initDedupState slotFixtureA).1 rfl rfl).2.1⟩,
   ⟨rfl,
    ((is_duplicate_slot_fails_open envFlaky initDedupState slotFixtureA).2 rfl (Or.inr rfl)).1,
    ((is_duplicate_slot_fails_open envFlaky initDedupState slotFixtureA).2 rfl (Or.inr rfl)).2.1⟩⟩

/-- Claim C8: the batch check partitions its input — every input occurrence
lands in exactly one of `(new_slots, duplicate_slots)`, both outputs preserve
the input order (they are sublists of the input), and the output sizes sum to
the input length.  (The single-slot check is applied in list order by
construction of `check_multiple_slots`.) -/
theorem check_multiple_slots_partitions (env : Env) (st : DedupState)
    (slots : List SlotDoc) :
    (check_multiple_slots env st slots).1.1.Sublist slots ∧
    ((check_multiple_slots env st slots).1.2.map Prod.fst).Sublist slots ∧
    (check_multiple_slots env st slots).1.1.length +
      (check_multiple_slots env st slots).1.2.length = slots.length ∧
    ∀ s : SlotDoc,
      (check_multiple_slots env st slots).1.1.count s +
        ((check_multiple_slots env st slots).1.2.map Prod.fst).count s =
      slots.count s := by
  induction slots generalizing st with
  | nil => simp [check_multiple_slots]
  | cons slot rest ih =>
    obtain ⟨ih1, ih2, ih3, ih4⟩ := ih (is_duplicate_slot env st slot).2
    by_cases hd : (is_duplicate_slot env st slot).1.1
    · refine ⟨?_, ?_, ?_, ?_⟩ <;>
        simp only [check_multiple_slots, hd, if_pos, List.map_cons, List.length_cons]
      · exact ih1.cons slot
      · exact ih2.cons₂ slot
      · omega
      · intro s
        have := ih4 s
        simp [List.count_cons]
        omega
    · refine ⟨?_, ?_, ?_, ?_⟩ <;>
        simp only [check_multiple_slots, hd, if_neg, List.map_cons, List.length_cons,
          Bool.false_eq_true, ite_false]
      · exact ih1.cons₂ slot
      · exact ih2.cons slot
      · omega
      · intro s
        have := ih4 s
        simp [List.count_cons]
        omega

/-- Counterexample to C7 as stated: the hashed keys all start with
`dedupe:slot:hash:`, but that marker is NOT unattainable for short keys — a
slot whose own tuple begins with the segment `hash` (here
`venue_id="hash", date="a", start_time="b", court_id="c"`, concatenated
suffix `hash:a:b:c` of only 10 characters) produces the literal key
`dedupe:slot:hash:a:b:c`, which carries the very same marker as the hashed
key of a 200+-character suffix. -/
theorem generate_slot_key_marker_counterexample :
    (key_suffix hashNamedSlot).length ≤ 200 ∧
    "dedupe:slot:hash:".data <+: (generate_slot_key hashNamedSlot).data ∧
    200 < (key_suffix longKeySlot).length ∧
    "dedupe:slot:hash:".data <+: (generate_slot_key longKeySlot).data := by
  refine ⟨by decide, by decide, by decide, ?_⟩
  have h : (key_suffix longKeySlot).length > 200 := by decide
  have hkey : generate_slot_key longKeySlot =
      "dedupe:slot:hash:" ++ MD5.md5hex (key_suffix longKeySlot) := by
    simp [generate_slot_key, h]
  rw [hkey, String.data_append]
  exact List.prefix_append _ _

/-- Claim C7 (amended): a slot whose concatenated natural-key string exceeds
200 characters always yields a key of fixed length 49 — the hash marker
`dedupe:slot:hash:` followed by the 32-character MD5 hex digest of the
string — and no key generated for a string of 200 characters or fewer
carries that marker, unless that string itself begins with `hash:`. -/
theorem generate_slot_key_long_hashed (s : SlotDoc)
    (h : 200 < (key_suffix s).length) :
    (generate_slot_key s).length = 49 ∧
    generate_slot_key s = "dedupe:slot:hash:" ++ MD5.md5hex (key_suffix s) ∧
    "dedupe:slot:hash:".data <+: (generate_slot_key s).data ∧
    ∀ t : SlotDoc, (key_suffix t).length ≤ 200 →
      ¬ "hash:".data <+: (key_suffix t).data →
      ¬ "dedupe:slot:hash:".data <+: (generate_slot_key t).data := by
  have hkey : generate_slot_key s =
      "dedupe:slot:hash:" ++ MD5.md5hex (key_suffix s) := by
    simp [generate_slot_key, h]
  refine ⟨?_, hkey, ?_, ?_⟩
  · rw [hkey, String.length_append, MD5.md5hex_length]
    decide
  · rw [hkey, String.data_append]
    exact List.prefix_append _ _
  · intro t ht hhash hpre
    have hnot : ¬ (key_suffix t).length > 200 := by omega
    have hkt : generate_slot_key t = "dedupe:slot:" ++ key_suffix t := by
      simp [generate_slot_key, hnot]
    rw [hkt, String.data_append] at hpre
    have hsplit : "dedupe:slot:hash:".data = "dedupe:slot:".data ++ "hash:".data := by
      decide
    rw [hsplit, List.prefix_append_right_inj] at hpre
    exact hhash hpre

/-- Witness for the amended C7: the 210-character-venue slot gets a
49-character hash-marked key, while a normal short-tuple slot's key does not
carry the marker. -/
theorem generate_slot_key_long_hashed_witness :
    200 < (key_suffix longKeySlot).length ∧
    (generate_slot_key longKeySlot).length = 49 ∧
    "dedupe:slot:hash:".data <+: (generate_slot_key longKeySlot).data ∧
    ¬ "dedupe:slot:hash:".data <+: (generate_slot_key slotFixtureA).data :=
  ⟨by decide,
   (generate_slot_key_long_hashed longKeySlot (by decide)).1,
   (generate_slot_key_long_hashed longKeySlot (by decide)).2.2.1,
   (generate_slot_key_long_hashed longKeySlot (by decide)).2.2.2 slotFixtureA
     (by decide) (by decide)⟩

/-- Every document matches the natural-key filter built from itself. -/
theorem matchesFilter_self (d : SlotDoc) : matchesFilter d d = true := by
  simp [matchesFilter]

/-- Documents with equal natural keys build the same filter. -/
theorem matchesFilter_congr (d1 d2 : SlotDoc)
    (hv : d2.venue_id = d1.venue_id) (hc : d2.court_id = d1.court_id)
    (hd : d2.date = d1.date) (hs : d2.start_time = d1.start_time) (x : SlotDoc) :
    matchesFilter d1 x = matchesFilter d2 x := by
  simp [matchesFilter, hv, hc, hd, hs]

/-- After upserting `doc`, the documents matching `doc`'s natural key are
exactly `[doc]`, provided the collection held at most one match before (the
invariant the upsert itself maintains). -/
theorem upsert_slot_filter (coll : List SlotDoc) (doc : SlotDoc)
    (h : (coll.filter (fun d => matchesFilter doc d)).length ≤ 1) :
    (upsert_slot coll doc).filter (fun d => matchesFilter doc d) = [doc] := by
  induction coll with
  | nil => simp [upsert_slot, List.filter_cons, matchesFilter_self]
  | cons d rest ih =>
    by_cases hm : matchesFilter doc d
    · have hrest : rest.filter (fun x => matchesFilter doc x) = [] := by
        simp only [List.filter_cons, hm, if_pos, List.length_cons] at h
        exact List.eq_nil_of_length_eq_zero (by omega)
      simp [upsert_slot, hm, List.filter_cons, matchesFilter_self, hrest]
    · have h' : (rest.filter (fun x => matchesFilter doc x)).length ≤ 1 := by
        simpa [List.filter_cons, hm] using h
      simp [upsert_slot, hm, List.filter_cons, ih h']

/-- Claim C5: writing two slot documents with equal natural keys
`(venue_id, court_id, date, start_time)` through the orchestrator's
`replace_one(..., upsert=True)` leaves exactly one document for that natural
key, and it is the later write (last-write-wins replace). -/
theorem upsert_slot_last_write_wins (coll : List SlotDoc) (d1 d2 : SlotDoc)
    (hv : d2.venue_id = d1.venue_id) (hc : d2.court_id = d1.court_id)
    (hd : d2.date = d1.date) (hs : d2.start_time = d1.start_time)
    (h : (coll.filter (fun d => matchesFilter d1 d)).length ≤ 1) :
    (upsert_slot (upsert_slot coll d1) d2).filter (fun d => matchesFilter d2 d)
      = [d2] ∧
    ((upsert_slot (upsert_slot coll d1) d2).filter
      (fun d => matchesFilter d2 d)).length = 1 := by
  have h1 := upsert_slot_filter coll d1 h
  have heq : (upsert_slot coll d1).filter (fun d => matchesFilter d2 d)
      = (upsert_slot coll d1).filter (fun d => matchesFilter d1 d) :=
    List.filter_congr fun x _ => (matchesFilter_congr d1 d2 hv hc hd hs x).symm
  have h2 : ((upsert_slot coll d1).filter (fun d => matchesFilter d2 d)).length ≤ 1 := by
    rw [heq, h1]
    simp
  have hfin := upsert_slot_filter (upsert_slot coll d1) d2 h2
  exact ⟨hfin, by rw [hfin]; rfl⟩

/-- Witness for C5: upserting `slotFixtureA` and then `slotFixtureB` (same
natural key, different price and other fields) into an empty collection
leaves exactly the record of the second write. -/
theorem upsert_slot_last_write_wins_witness :
    slotFixtureA.price ≠ slotFixtureB.price ∧
    (upsert_slot (upsert_slot [] slotFixtureA) slotFixtureB).filter
      (fun d => matchesFilter slotFixtureB d) = [slotFixtureB] :=
  ⟨by decide,
   (upsert_slot_last_write_wins [] slotFixtureA slotFixtureB rfl rfl rfl rfl
     (by simp)).1⟩

/-- The venue loop produces exactly one result per venue. -/
theorem scrape_all_venues_length (env : Env)
    (scrape : Venue → Except String ScrapingResult)
    (venues : List Venue) (st : OrchState) :
    (scrape_all_venues env scrape venues st).1.length = venues.length := by
  induction venues generalizing st with
  | nil => simp [scrape_all_venues]
  | cons v rest ih =>
    cases hsv : scrape v with
    | ok r => simp [scrape_all_venues, hsv, ih]
    | error e => simp [scrape_all_venues, hsv, ih]

/-- Claim C4: if scraping one venue raises, the orchestrator synthesizes a
failed result carrying the exception text and continues with the remaining
venues: three venues whose second throws yield exactly the three results
(success, synthesized failure, success) in venue order, and in general the
loop yields one result per venue. -/
theorem scrape_all_venues_failure_isolated (env : Env)
    (scrape : Venue → Except String ScrapingResult)
    (v1 v2 v3 : Venue) (r1 r3 : ScrapingResult) (e : String) (st : OrchState)
    (h1 : scrape v1 = .ok r1) (h2 : scrape v2 = .error e) (h3 : scrape v3 = .ok r3)
    (hs1 : r1.success = true) (hs3 : r3.success = true) :
    (scrape_all_venues env scrape [v1, v2, v3] st).1 =
      [r1, mk_error_result v2 e env.now, r3] ∧
    ((scrape_all_venues env scrape [v1, v2, v3] st).1.map (fun r => r.success))
      = [true, false, true] ∧
    (mk_error_result v2 e env.now).errors =
      ["Error scraping venue " ++ v2.name ++ ": " ++ e] ∧
    ∀ (venues : List Venue) (st1 : OrchState),
      (scrape_all_venues env scrape venues st1).1.length = venues.length := by
  have hmain : (scrape_all_venues env scrape [v1, v2, v3] st).1 =
      [r1, mk_error_result v2 e env.now, r3] := by
    simp [scrape_all_venues, h1, h2, h3]
  refine ⟨hmain, ?_, rfl, fun venues st1 => scrape_all_venues_length env scrape venues st1⟩
  rw [hmain]
  simp [mk_error_result, hs1, hs3]

/-- Witness for C4: `Alpha`/`Bravo`/`Charlie` where `Bravo` throws a timeout
produce the three results in order with the exception text preserved. -/
theorem scrape_all_venues_failure_isolated_witness :
    (scrape_all_venues envOk scrapeFixture [venueA, venueB, venueC] initOrchState).1 =
      [mkResult [scrapedSlotPriced],
       mk_error_result venueB "TimeoutError: page load timed out" envOk.now,
       mkResult [scrapedSlotPriced]] ∧
    ((scrape_all_venues envOk scrapeFixture [venueA, venueB, venueC]
        initOrchState).1.map (fun r => r.success)) = [true, false, true] :=
  ⟨(scrape_all_venues_failure_isolated envOk scrapeFixture venueA venueB venueC
      (mkResult [scrapedSlotPriced]) (mkResult [scrapedSlotPriced])
      "TimeoutError: page load timed out" initOrchState rfl rfl rfl rfl rfl).1,
   (scrape_all_venues_failure_isolated envOk scrapeFixture venueA venueB venueC
      (mkResult [scrapedSlotPriced]) (mkResult [scrapedSlotPriced])
      "TimeoutError: page load timed out" initOrchState rfl rfl rfl rfl rfl).2.1⟩

/-- Processing a clean batch and then more slots is processing the
concatenation: the per-slot loop only aborts at the raising slot itself. -/
theorem processNewSlots_append (pre rest : List SlotDoc) (coll : List SlotDoc)
    (notifs : List NotificationMsg)
    (h : (processNewSlots coll notifs pre).2.2 = false) :
    processNewSlots coll notifs (pre ++ rest) =
      processNewSlots (processNewSlots coll notifs pre).1
        (processNewSlots coll notifs pre).2.1 rest := by
  induction pre generalizing coll notifs with
  | nil => simp [processNewSlots]
  | cons doc pre1 ih =>
    by_cases hb : ((find_one coll doc).isNone && doc.available) = true
    · cases hp : doc.price with
      | none =>
        exfalso
        simp [processNewSlots, hb, hp] at h
      | some p =>
        simp only [processNewSlots, hb, hp, if_pos, List.cons_append] at h ⊢
        exact ih _ _ h
    · simp only [processNewSlots, hb, if_neg, Bool.false_eq_true, ite_false,
        List.cons_append] at h ⊢
      exact ih _ _ h

/-- The per-slot loop never raises when every available slot has a price. -/
theorem processNewSlots_no_price_none (coll : List SlotDoc)
    (notifs : List NotificationMsg) (docs : List SlotDoc)
    (h : ∀ d ∈ docs, d.available = true → d.price ≠ none) :
    (processNewSlots coll notifs docs).2.2 = false := by
  induction docs generalizing coll notifs with
  | nil => rfl
  | cons doc rest ih =>
    by_cases hb : ((find_one coll doc).isNone && doc.available) = true
    · have hav : doc.available = true := (Bool.and_eq_true _ _ |>.mp hb).2
      cases hp : doc.price with
      | none =>
        exact absurd hp (h doc (List.mem_cons_self doc rest) hav)
      | some p =>
        simp only [processNewSlots, hb, hp, if_pos]
        exact ih _ _ fun d hd => h d (List.mem_cons_of_mem doc hd)
    · simp only [processNewSlots, hb, if_neg, Bool.false_eq_true, ite_false]
      exact ih _ _ fun d hd => h d (List.mem_cons_of_mem doc hd)

/-- The new-slot partition is a sublist of the checked input. -/
theorem check_multiple_slots_new_sublist (env : Env) (st : DedupState)
    (slots : List SlotDoc) :
    (check_multiple_slots env st slots).1.1.Sublist slots := by
  induction slots generalizing st with
  | nil => simp [check_multiple_slots]
  | cons slot rest ih =>
    by_cases hd : (is_duplicate_slot env st slot).1.1
    · simp only [check_multiple_slots, hd, if_pos]
      exact (ih _).cons slot
    · simp only [check_multiple_slots, hd, Bool.false_eq_true, ite_false]
      exact (ih _).cons₂ slot

/-- Claim C10: a non-duplicate available slot with `price=None` that is absent
from the store makes the persistence step raise at `float(None)` right after
its own upsert; the outer catch-all swallows the exception, so the routine
returns with only the dedup marks and the upserts made so far committed — the
upserts of any later slots of the result, the notification publish and the
scrape-log append are all skipped, and nothing propagates to the session
loop (the function returns an ordinary state). -/
theorem store_scraping_result_price_none_aborts (env : Env) (st : OrchState)
    (result : ScrapingResult) (pre post : List SlotDoc) (doc : SlotDoc)
    (hne : result.slots_found ≠ [])
    (hsplit : (check_multiple_slots env st.dedup
        (result.slots_found.map (toSlotDoc result.platform))).1.1 =
      pre ++ doc :: post)
    (hpre : (processNewSlots st.slots [] pre).2.2 = false)
    (hnew : find_one (processNewSlots st.slots [] pre).1 doc = none)
    (hav : doc.available = true) (hpr : doc.price = none) :
    store_scraping_result env st result =
      { st with
        dedup := (check_multiple_slots env st.dedup
          (result.slots_found.map (toSlotDoc result.platform))).2
        slots := upsert_slot (processNewSlots st.slots [] pre).1 doc } ∧
    (store_scraping_result env st result).published = st.published ∧
    (store_scraping_result env st result).scraping_logs = st.scraping_logs := by
  have hE : result.slots_found.isEmpty = false := by
    cases h : result.slots_found with
    | nil => exact absurd h hne
    | cons a l => rfl
  have hmain : store_scraping_result env st result =
      { st with
        dedup := (check_multiple_slots env st.dedup
          (result.slots_found.map (toSlotDoc result.platform))).2
        slots := upsert_slot (processNewSlots st.slots [] pre).1 doc } := by
    simp only [store_scraping_result, hE, Bool.false_eq_true, ite_false, hsplit]
    rw [processNewSlots_append pre (doc :: post) st.slots [] hpre]
    simp only [processNewSlots, hnew, Option.isNone_none, hav, Bool.true_and,
      hpr, if_pos]
  exact ⟨hmain, by rw [hmain], by rw [hmain]⟩

/-- Witness for C10: a fresh state and a result holding one available,
unpriced slot — the slot's upsert is committed, nothing is published and no
log entry is appended. -/
theorem store_scraping_result_price_none_aborts_witness :
    resultNoPrice.slots_found ≠ [] ∧
    store_scraping_result envOk initOrchState resultNoPrice =
      { initOrchState with
        dedup := (check_multiple_slots envOk initOrchState.dedup
          (resultNoPrice.slots_found.map (toSlotDoc resultNoPrice.platform))).2
        slots := upsert_slot (processNewSlots initOrchState.slots [] []).1
          (toSlotDoc "courtside" scrapedSlotNoPrice) } ∧
    (store_scraping_result envOk initOrchState resultNoPrice).published =
      initOrchState.published ∧
    (store_scraping_result envOk initOrchState resultNoPrice).scraping_logs =
      initOrchState.scraping_logs :=
  ⟨by decide,
   (store_scraping_result_price_none_aborts envOk initOrchState resultNoPrice
     [] [] (toSlotDoc "courtside" scrapedSlotNoPrice)
     (by decide) (by decide) rfl rfl rfl rfl).1,
   (store_scraping_result_price_none_aborts envOk initOrchState resultNoPrice
     [] [] (toSlotDoc "courtside" scrapedSlotNoPrice)
     (by decide) (by decide) rfl rfl rfl rfl).2.1,
   (store_scraping_result_price_none_aborts envOk initOrchState resultNoPrice
     [] [] (toSlotDoc "courtside" scrapedSlotNoPrice)
     (by decide) (by decide) rfl rfl rfl rfl).2.2⟩

/-- When the per-slot loop completes without raising, the scrape log entry is
appended whatever the publish step did. -/
theorem store_scraping_result_logs_of_no_raise (env : Env) (st : OrchState)
    (result : ScrapingResult)
    (h : (processNewSlots st.slots []
      (check_multiple_slots env st.dedup
        (result.slots_found.map (toSlotDoc result.platform))).1.1).2.2 = false) :
    (store_scraping_result env st result).scraping_logs =
      st.scraping_logs ++ [mkLogDoc env result] := by
  by_cases hE : result.slots_found.isEmpty
  · simp [store_scraping_result, hE, appendLog]
  · have hE' : result.slots_found.isEmpty = false := by
      simpa using hE
    simp only [store_scraping_result, hE', Bool.false_eq_true, ite_false, h,
      appendLog]
    split
    · rfl
    · split
      · rfl
      · rfl

/-- Counterexample to C2 as stated: a result holding one available slot with
`price=None` goes through the persistence step, raises at `float(None)`
inside the routine's single `try`, and the catch-all at the bottom skips the
scrape-log append entirely — no log entry with the final counts is written. -/
theorem claim2_no_log_counterexample :
    resultNoPrice.slots_found ≠ [] ∧
    scrapedSlotNoPrice.available = true ∧
    scrapedSlotNoPrice.price = none ∧
    (store_scraping_result envOk initOrchState resultNoPrice).scraping_logs =
      initOrchState.scraping_logs := by
  decide

/-- Claim C2 (amended): the persistence step appends the scrape-log entry with
the final counts provided its storage/dedup/notification steps complete
without an unhandled exception — in particular for every zero-slot result
(which also touches no slot document) and for every result none of whose
available slots has a missing price; a notification-publish failure is caught
separately and does not prevent the log append. -/
theorem store_scraping_result_always_logs (env : Env) (st : OrchState)
    (result : ScrapingResult) :
    (result.slots_found = [] →
      (store_scraping_result env st result).slots = st.slots ∧
      (store_scraping_result env st result).published = st.published ∧
      (store_scraping_result env st result).scraping_logs =
        st.scraping_logs ++ [mkLogDoc env result]) ∧
    ((∀ s ∈ result.slots_found, s.available = true → s.price ≠ none) →
      (store_scraping_result env st result).scraping_logs =
        st.scraping_logs ++ [mkLogDoc env result]) := by
  constructor
  · intro hnil
    have hE : result.slots_found.isEmpty = true := by simp [hnil]
    refine ⟨?_, ?_, ?_⟩ <;> simp [store_scraping_result, hE, appendLog]
  · intro hall
    apply store_scraping_result_logs_of_no_raise
    apply processNewSlots_no_price_none
    intro d hd hdav
    have hsub := check_multiple_slots_new_sublist env st.dedup
      (result.slots_found.map (toSlotDoc result.platform))
    obtain ⟨s, hs, rfl⟩ := List.mem_map.mp (hsub.subset hd)
    exact hall s hs hdav

/-- Witness for the amended C2: a zero-slot result appends a log entry and
stores nothing; a one-priced-slot result also appends its log entry. -/
theorem store_scraping_result_always_logs_witness :
    ((store_scraping_result envOk initOrchState (mkResult [])).slots =
        initOrchState.slots ∧
      (store_scraping_result envOk initOrchState (mkResult [])).published =
        initOrchState.published ∧
      (store_scraping_result envOk initOrchState (mkResult [])).scraping_logs =
        initOrchState.scraping_logs ++ [mkLogDoc envOk (mkResult [])]) ∧
    (store_scraping_result envOk initOrchState resultPriced).scraping_logs =
      initOrchState.scraping_logs ++ [mkLogDoc envOk resultPriced] :=
  ⟨(store_scraping_result_always_logs envOk initOrchState (mkResult [])).1 rfl,
   (store_scraping_result_always_logs envOk initOrchState resultPriced).2
     (by decide)⟩

theorem toSlotDoc_available (platform : String) (s : ScrapedSlot) :
    (toSlotDoc platform s).available = s.available := rfl

theorem toSlotDoc_price (platform : String) (s : ScrapedSlot) :
    (toSlotDoc platform s).price = s.price := rfl

/-- With a reachable, non-raising Redis, checking a slot whose key is absent
marks the key and answers "new". -/
theorem is_duplicate_slot_new (env : Env) (st : DedupState) (doc : SlotDoc)
    (h1 : env.connectOk = true) (h2 : env.setRaises = false)
    (hk : generate_slot_key doc ∉ st.cache) :
    is_duplicate_slot env st doc =
      ((false, generate_slot_key doc),
       { clientConnected := true
         cache := generate_slot_key doc :: st.cache
         metrics := { st.metrics with
           total_checks := st.metrics.total_checks + 1
           new_slots := st.metrics.new_slots + 1 } }) := by
  by_cases hcc : st.clientConnected <;>
    simp [is_duplicate_slot, connect, checkSet, hcc, h1, h2, hk]

/-- With a reachable, non-raising Redis, checking a slot whose key is present
leaves the cache untouched and answers "duplicate". -/
theorem is_duplicate_slot_dup (env : Env) (st : DedupState) (doc : SlotDoc)
    (h1 : env.connectOk = true) (h2 : env.setRaises = false)
    (hk : generate_slot_key doc ∈ st.cache) :
    is_duplicate_slot env st doc =
      ((true, generate_slot_key doc),
       { clientConnected := true
         cache := st.cache
         metrics := { st.metrics with
           total_checks := st.metrics.total_checks + 1
           duplicates_found := st.metrics.duplicates_found + 1 } }) := by
  by_cases hcc : st.clientConnected <;>
    simp [is_duplicate_slot, connect, checkSet, hcc, h1, h2, hk]

/-- After upserting a document, a lookup by its own natural key finds a
record. -/
theorem find_one_upsert_isSome (coll : List SlotDoc) (doc : SlotDoc) :
    (find_one (upsert_slot coll doc) doc).isSome := by
  induction coll with
  | nil => simp [upsert_slot, find_one, matchesFilter_self]
  | cons d rest ih =>
    by_cases hm : matchesFilter doc d
    · simp [upsert_slot, hm, find_one, matchesFilter_self]
    · simpa [upsert_slot, hm, find_one] using ih

/-- First submission of a fresh, available, priced slot: the notification is
published, the dedup key is marked, and the record is stored. -/
theorem store_scraping_result_publishes_new (env : Env) (st : OrchState)
    (result : ScrapingResult) (slot : ScrapedSlot) (p : ℚ)
    (hslots : result.slots_found = [slot])
    (h1 : env.connectOk = true) (h2 : env.setRaises = false)
    (h3 : env.publishOk = true)
    (hav : slot.available = true) (hpr : slot.price = some p)
    (hk : generate_slot_key (toSlotDoc result.platform slot) ∉ st.dedup.cache)
    (hstore : find_one st.slots (toSlotDoc result.platform slot) = none) :
    (store_scraping_result env st result).published =
      st.published ++ [mkNotification (toSlotDoc result.platform slot) p] ∧
    generate_slot_key (toSlotDoc result.platform slot) ∈
      (store_scraping_result env st result).dedup.cache ∧
    (find_one (store_scraping_result env st result).slots
      (toSlotDoc result.platform slot)).isSome := by
  have hE : result.slots_found.isEmpty = false := by rw [hslots]; rfl
  have hmap : result.slots_found.map (toSlotDoc result.platform) =
      [toSlotDoc result.platform slot] := by rw [hslots]; rfl
  have hr := is_duplicate_slot_new env st.dedup (toSlotDoc result.platform slot)
    h1 h2 hk
  have hchk : check_multiple_slots env st.dedup [toSlotDoc result.platform slot] =
      (([toSlotDoc result.platform slot], []),
       (is_duplicate_slot env st.dedup (toSlotDoc result.platform slot)).2) := by
    simp [check_multiple_slots, hr]
  have hproc : processNewSlots st.slots [] [toSlotDoc result.platform slot] =
      (upsert_slot st.slots (toSlotDoc result.platform slot),
       [mkNotification (toSlotDoc result.platform slot) p], false) := by
    simp [processNewSlots, hstore, toSlotDoc_available, hav, toSlotDoc_price, hpr]
  have hfinal : store_scraping_result env st result =
      appendLog env
        { st with
          dedup := (is_duplicate_slot env st.dedup (toSlotDoc result.platform slot)).2
          slots := upsert_slot st.slots (toSlotDoc result.platform slot)
          published := st.published ++
            [mkNotification (toSlotDoc result.platform slot) p] }
        result := by
    simp [store_scraping_result, hE, hmap, hchk, hproc, h3]
  refine ⟨?_, ?_, ?_⟩
  · rw [hfinal]; rfl
  · rw [hfinal]
    simp only [appendLog, hr]
    exact List.mem_cons_self _ _
  · rw [hfinal]
    exact find_one_upsert_isSome _ _

/-- A submission whose dedup key is still cached publishes nothing. -/
theorem store_scraping_result_drops_cached (env : Env) (st : OrchState)
    (result : ScrapingResult) (slot : ScrapedSlot)
    (hslots : result.slots_found = [slot])
    (h1 : env.connectOk = true) (h2 : env.setRaises = false)
    (hk : generate_slot_key (toSlotDoc result.platform slot) ∈ st.dedup.cache) :
    (store_scraping_result env st result).published = st.published := by
  have hE : result.slots_found.isEmpty = false := by rw [hslots]; rfl
  have hmap : result.slots_found.map (toSlotDoc result.platform) =
      [toSlotDoc result.platform slot] := by rw [hslots]; rfl
  have hr := is_duplicate_slot_dup env st.dedup (toSlotDoc result.platform slot)
    h1 h2 hk
  have hchk : check_multiple_slots env st.dedup [toSlotDoc result.platform slot] =
      (([], [(toSlotDoc result.platform slot,
              generate_slot_key (toSlotDoc result.platform slot))]),
       (is_duplicate_slot env st.dedup (toSlotDoc result.platform slot)).2) := by
    simp [check_multiple_slots, hr]
  simp [store_scraping_result, hE, hmap, hchk, processNewSlots, appendLog]

/-- A submission whose record already sits in the slots collection publishes
nothing, whatever the dedup cache says (the store's natural-key existence
check is an independent gate). -/
theorem store_scraping_result_drops_stored (env : Env) (st : OrchState)
    (result : ScrapingResult) (slot : ScrapedSlot)
    (hslots : result.slots_found = [slot])
    (hstore : (find_one st.slots (toSlotDoc result.platform slot)).isSome) :
    (store_scraping_result env st result).published = st.published := by
  have hE : result.slots_found.isEmpty = false := by rw [hslots]; rfl
  have hmap : result.slots_found.map (toSlotDoc result.platform) =
      [toSlotDoc result.platform slot] := by rw [hslots]; rfl
  by_cases hd : (is_duplicate_slot env st.dedup (toSlotDoc result.platform slot)).1.1
  · have hchk : check_multiple_slots env st.dedup [toSlotDoc result.platform slot] =
        (([], [(toSlotDoc result.platform slot,
                (is_duplicate_slot env st.dedup (toSlotDoc result.platform slot)).1.2)]),
         (is_duplicate_slot env st.dedup (toSlotDoc result.platform slot)).2) := by
      simp [check_multiple_slots, hd]
    simp [store_scraping_result, hE, hmap, hchk, processNewSlots, appendLog]
  · have hchk : check_multiple_slots env st.dedup [toSlotDoc result.platform slot] =
        (([toSlotDoc result.platform slot], []),
         (is_duplicate_slot env st.dedup (toSlotDoc result.platform slot)).2) := by
      simp [check_multiple_slots, hd]
    have hn : (find_one st.slots (toSlotDoc result.platform slot)).isNone = false := by
      cases h : find_one st.slots (toSlotDoc result.platform slot) with
      | none => rw [h] at hstore; simp at hstore
      | some d => rfl
    have hproc : processNewSlots st.slots [] [toSlotDoc result.platform slot] =
        (upsert_slot st.slots (toSlotDoc result.platform slot), [], false) := by
      simp [processNewSlots, hn]
    simp [store_scraping_result, hE, hmap, hchk, hproc, appendLog]

/-- Counterexample to C1 as stated: an available slot with `price=None` that
is in neither the cache nor the store is submitted twice through a fully
working pipeline, yet ZERO notifications are produced — the first submission
crashes at `float(None)` while building the message (after marking the dedup
key and upserting the record) and the second is dropped as a duplicate, so
"exactly one notification across the two submissions" fails. -/
theorem claim1_at_most_once_counterexample :
    scrapedSlotNoPrice.available = true ∧
    generate_slot_key (toSlotDoc "courtside" scrapedSlotNoPrice) ∉
      initOrchState.dedup.cache ∧
    find_one initOrchState.slots (toSlotDoc "courtside" scrapedSlotNoPrice) = none ∧
    envOk.connectOk = true ∧ envOk.setRaises = false ∧ envOk.publishOk = true ∧
    (store_scraping_result envOk
        (store_scraping_result envOk initOrchState resultNoPrice)
        resultNoPrice).published.length ≠
      initOrchState.published.length + 1 := by
  decide

/-- Claim C1 (amended): a slot tuple that is fresh (key not cached, record not
stored), available and PRICED, submitted twice through a working pipeline
within the TTL window, produces exactly one notification: the first
submission publishes it, the second — finding the cache key still present —
publishes nothing; and independently, any submission that finds the record
already stored under its natural key publishes nothing (the store's existence
check), whatever the cache state.  An available slot with `price=None` is the
exception the counterexample exhibits: its notification build crashes and
zero notifications are produced. -/
theorem notified_exactly_once_per_ttl (env : Env) (st : OrchState)
    (result : ScrapingResult) (slot : ScrapedSlot) (p : ℚ)
    (hslots : result.slots_found = [slot])
    (h1 : env.connectOk = true) (h2 : env.setRaises = false)
    (h3 : env.publishOk = true)
    (hav : slot.available = true) (hpr : slot.price = some p)
    (hk : generate_slot_key (toSlotDoc result.platform slot) ∉ st.dedup.cache)
    (hstore : find_one st.slots (toSlotDoc result.platform slot) = none) :
    (store_scraping_result env st result).published =
      st.published ++ [mkNotification (toSlotDoc result.platform slot) p] ∧
    (store_scraping_result env (store_scraping_result env st result)
        result).published =
      (store_scraping_result env st result).published ∧
    (store_scraping_result env (store_scraping_result env st result)
        result).published.length = st.published.length + 1 ∧
    (∀ st1 : OrchState,
      (find_one st1.slots (toSlotDoc result.platform slot)).isSome →
      (store_scraping_result env st1 result).published = st1.published) := by
  obtain ⟨hpub, hcache, _⟩ :=
    store_scraping_result_publishes_new env st result slot p hslots h1 h2 h3
      hav hpr hk hstore
  have hdrop := store_scraping_result_drops_cached env
    (store_scraping_result env st result) result slot hslots h1 h2 hcache
  refine ⟨hpub, hdrop, ?_,
    fun st1 hs =>
      store_scraping_result_drops_stored env st1 result slot hslots hs⟩
  rw [hdrop, hpub]
  simp

/-- Witness for the amended C1: the priced available slot on a fresh pipeline
is published exactly once across two submissions. -/
theorem notified_exactly_once_per_ttl_witness :
    (store_scraping_result envOk initOrchState resultPriced).published =
      initOrchState.published ++
        [mkNotification (toSlotDoc resultPriced.platform scrapedSlotPriced) 12] ∧
    (store_scraping_result envOk
        (store_scraping_result envOk initOrchState resultPriced)
        resultPriced).published.length =
      initOrchState.published.length + 1 :=
  ⟨(notified_exactly_once_per_ttl envOk initOrchState resultPriced
      scrapedSlotPriced 12 rfl rfl rfl rfl rfl rfl (by decide) rfl).1,
   (notified_exactly_once_per_ttl envOk initOrchState resultPriced
      scrapedSlotPriced 12 rfl rfl rfl rfl rfl rfl (by decide) rfl).2.2.1⟩

end TennisBooker
